import Mathlib

/-!
Verification development for the scoring-and-response engine of the
mindmappr-setup repository.  The four structurally similar scoring modules
are embedded shallowly:

* `AdvancedPredatorDefenseSkill`  — src/advanced_predator_defense.py
* `BadActorDetectionSystem`       — src/workspace/bad_actor_detection.py
* `PredatorDefenseSkill`          — src/workspace/predator_defense.py
* `AISystemSupportFramework`      — src/ai_system_support.py

Scores are rationals (Python floats never hit rounding in the ranges the
claims exercise; all constants are decimal fractions).  Every regular
expression the detectors use is metacharacter-free after Python escape
processing, so `re.search(pat, text)` and `pat in text` are both substring
tests on the lower-cased text.  The sklearn TF-IDF / cosine-similarity /
IsolationForest calls are abstracted as an oracle parameter recording only
what the surrounding code observes: whether `fit_transform` succeeds, the
list of similarity values, and the absolute anomaly score.  File writes are
modelled by boolean success flags; a failed write surfaces as an error value
after any in-memory mutation the source has already performed.
-/

/-- Prefix test on character lists (scratch for the substring test). -/
def lcStartsWith : List Char → List Char → Bool
  | _, [] => true
  | [], _ :: _ => false
  | a :: as, b :: bs => a == b && lcStartsWith as bs

/-- Substring test on character lists. -/
def lcContains (hay pat : List Char) : Bool :=
  if lcStartsWith hay pat then true
  else
    match hay with
    | [] => false
    | _ :: t => lcContains t pat

/-- Models Python `pattern in text.lower()` and, for the literal
(metacharacter-free) patterns used by every detector in scope,
`re.search(pattern, text.lower()) is not None`. -/
def containsLC (text pat : String) : Bool :=
  lcContains (text.data.map Char.toLower) pat.data

/-- Python builtin `min` on two floats, specialised to rationals. -/
def rmin (a b : ℚ) : ℚ := if a ≤ b then a else b

/-- Python builtin `max` on two floats, specialised to rationals. -/
def rmax (a b : ℚ) : ℚ := if a ≤ b then b else a

/-- Python slice `xs[-n:]` (the whole list when it is shorter than n). -/
def takeLast (n : Nat) (l : List α) : List α := l.drop (l.length - n)

/-- `numpy.mean` of a list of similarities.  On an empty array numpy
produces NaN (with a RuntimeWarning); NaN is not a rational number, so the
empty case is modelled as `none` and propagates through the arithmetic that
consumes it. -/
def np_mean (l : List ℚ) : Option ℚ :=
  if l.isEmpty then none else some (l.sum / (l.length : ℚ))

/-- Python `d.get(key, default)` on a string-keyed mapping of scalars. -/
def dictGet (ctx : List (String × ℚ)) (key : String) (dflt : ℚ) : ℚ :=
  match ctx.find? (fun p => p.1 == key) with
  | some p => p.2
  | none => dflt

/-- An interaction record: a dict read only through
`interaction.get("text", "")`. -/
structure Interaction where
  text : String
deriving DecidableEq

/-- Memory entry of the threat-scoring variants:
`{timestamp, interaction_text, threat_score}`. -/
structure ThreatEntry where
  timestamp : Nat
  interaction_text : String
  threat_score : ℚ
deriving DecidableEq

/-- A system-context mapping (`system_context` dict of scalar metrics). -/
abbrev SystemContext := List (String × ℚ)

/-- Memory entry of the support variant:
`{timestamp, system_context, support_score}`. -/
structure SupportEntry where
  timestamp : Nat
  system_context : SystemContext
  support_score : ℚ
deriving DecidableEq

/-- Abstraction of the sklearn library calls made by the correlation steps.
`fitOk corpus` records whether `TfidfVectorizer.fit_transform(corpus)`
succeeds (it raises ValueError exactly when the corpus yields an empty
vocabulary); `simList hist cur` is the row
`cosine_similarity(current_vector, historical_vectors)[0]`, one value per
historical text; `anomAbs corpus cur` is
`abs(IsolationForest(...).score_samples([current_vector])[0])`. -/
structure VecOracle where
  fitOk : List String → Bool
  simList : List String → String → List ℚ
  anomAbs : List String → String → ℚ

/-- Which durable write raised inside an update step. -/
inductive PersistFailure
  | writeFailed
  | localWriteFailed
  | globalWriteFailed
deriving DecidableEq

/-- How a scoring call can abort: a ValueError out of vectorization (or the
NaN it leaves behind), a persistence failure, or a failed audit-log
append.  None of these is caught anywhere in the scoring paths. -/
inductive AnalyzeFailure
  | vectorization
  | persistence (e : PersistFailure)
  | logWrite
deriving DecidableEq

/-- Shared shape of every pattern/marker detector:
`min(match_count * per_match_weight, 1.0)` over a fixed pattern list against
the lower-cased text. -/
def pattern_score (text : String) (patterns : List String) (w : ℚ) : ℚ :=
  rmin ((patterns.countP (fun p => containsLC text p) : ℚ) * w) 1

/-- Shared shape of every metadata-averaging detector:
`sum(ctx.get(m, 0.5) for m in markers) / len(markers)`. -/
def marker_average (ctx : SystemContext) (markers : List String) : ℚ :=
  (markers.map (fun m => dictGet ctx m (1/2))).sum / (markers.length : ℚ)

/-- Band index of a score against an ordered list of cut points: the number
of cut points that are ≤ the score.  Used to state that each response
selector realises half-open bands whose cut points belong to the higher
band. -/
def countBands (cuts : List ℚ) (s : ℚ) : ℕ :=
  cuts.countP (fun c => decide (c ≤ s))

namespace AdvancedPredatorDefenseSkill

/-- Per-dimension sub-scores of `analyze_interaction`. -/
structure DimensionScores where
  linguistic_manipulation : ℚ
  emotional_leverage : ℚ
  isolation_tactics : ℚ
  credibility_undermining : ℚ
  boundary_violation : ℚ
deriving DecidableEq

/-- `_analyze_linguistic_manipulation`: four literal regex patterns,
0.3 per match, clamped at 1. -/
def analyze_linguistic_manipulation (interaction : Interaction) : ℚ :=
  pattern_score interaction.text
    ["you\u0027re the only one who", "nobody else understands",
      "trust me and only me", "i know what\u0027s best for you"] (3/10)

/-- `_detect_emotional_leverage`: six trigger substrings, 0.2 per hit,
clamped at 1. -/
def detect_emotional_leverage (interaction : Interaction) : ℚ :=
  pattern_score interaction.text
    ["vulnerable", "alone", "misunderstood", "special", "unique", "different"]
    (1/5)

/-- `_identify_isolation_strategies`: four keyword substrings, 0.4 per hit,
clamped at 1. -/
def identify_isolation_strategies (interaction : Interaction) : ℚ :=
  pattern_score interaction.text
    ["they don\u0027t get you", "your friends are toxic",
      "family doesn\u0027t understand", "i\u0027m the only one who truly cares"]
    (2/5)

/-- `_assess_credibility_attacks`: four literal regex patterns, 0.3 per
match, clamped at 1. -/
def assess_credibility_attacks (interaction : Interaction) : ℚ :=
  pattern_score interaction.text
    ["you\u0027re not smart enough", "you couldn\u0027t do this without me",
      "i\u0027m more experienced", "you don\u0027t understand"] (3/10)

/-- `_evaluate_boundary_violations`: four literal regex patterns, 0.2 per
match, clamped at 1. -/
def evaluate_boundary_violations (interaction : Interaction) : ℚ :=
  pattern_score interaction.text
    ["just between us", "don\u0027t tell anyone", "this is our secret",
      "i know you want this"] (1/5)

/-- The `threat_scores` dict built at the top of `analyze_interaction`. -/
def threat_scores (interaction : Interaction) : DimensionScores :=
  { linguistic_manipulation := analyze_linguistic_manipulation interaction
    emotional_leverage := detect_emotional_leverage interaction
    isolation_tactics := identify_isolation_strategies interaction
    credibility_undermining := assess_credibility_attacks interaction
    boundary_violation := evaluate_boundary_violations interaction }

/-- `weighted_threat_score`: the weighted sum over `self.threat_dimensions`
(weights 0.3, 0.25, 0.2, 0.15, 0.1). -/
def weighted_threat_score (d : DimensionScores) : ℚ :=
  d.linguistic_manipulation * (3/10) + d.emotional_leverage * (1/4) +
    d.isolation_tactics * (1/5) + d.credibility_undermining * (3/20) +
    d.boundary_violation * (1/10)

/-- `_enhance_with_historical_context`.  An empty `threat_memory` returns the
current score untouched; otherwise the corpus `historical_texts + [text]` is
vectorized (a ValueError propagates — there is no try/except on this path),
the mean similarity is taken, and the boosted score is clamped at 1. -/
def enhance_with_historical_context (o : VecOracle) (threat_memory : List ThreatEntry)
    (current_score : ℚ) (text : String) : Option ℚ :=
  if threat_memory.isEmpty then some current_score
  else if o.fitOk (threat_memory.map (fun e => e.interaction_text) ++ [text]) then
    match np_mean (o.simList (threat_memory.map (fun e => e.interaction_text)) text) with
    | some corr => some (rmin (current_score * (1 + corr)) 1)
    | none => none
  else none

/-- Response thresholds of `_generate_advanced_defense_response`. -/
def response_cuts : List ℚ := [1/5, 1/2, 7/10, 9/10]

/-- The five response labels, in increasing severity. -/
def response_labels : List String :=
  ["NEUTRAL_PROFESSIONAL_RESPONSE", "STRATEGIC_BOUNDARY_REINFORCEMENT",
    "EXPLICIT_MANIPULATION_RECOGNITION", "COMPREHENSIVE_INTERACTION_TERMINATION",
    "TOTAL_COMMUNICATION_QUARANTINE"]

/-- `_generate_advanced_defense_response`. -/
def generate_advanced_defense_response (threat_score : ℚ) : String :=
  if threat_score < 1/5 then "NEUTRAL_PROFESSIONAL_RESPONSE"
  else if threat_score < 1/2 then "STRATEGIC_BOUNDARY_REINFORCEMENT"
  else if threat_score < 7/10 then "EXPLICIT_MANIPULATION_RECOGNITION"
  else if threat_score < 9/10 then "COMPREHENSIVE_INTERACTION_TERMINATION"
  else "TOTAL_COMMUNICATION_QUARANTINE"

/-- `_update_threat_memory`: the entry is appended to `self.threat_memory`
and the list is cut to its last 100 elements before the file write; a failed
write raises after that in-memory mutation, so the mutated list is returned
together with the surfaced failure. -/
def update_threat_memory (threat_memory : List ThreatEntry) (now : Nat)
    (interaction : Interaction) (threat_score : ℚ) (writeOk : Bool) :
    List ThreatEntry × Option PersistFailure :=
  let entry : ThreatEntry := ⟨now, interaction.text, threat_score⟩
  let mem := takeLast 100 (threat_memory ++ [entry])
  (mem, if writeOk then none else some PersistFailure.writeFailed)

/-- Result dict of `analyze_interaction`. -/
structure AnalyzeOutcome where
  threat_dimensions : DimensionScores
  total_threat_score : ℚ
  defense_strategy : String
deriving DecidableEq

/-- `analyze_interaction`: detectors, weighted aggregation, historical
enhancement, response selection, memory update, audit-log append.  The log
append (`_log_advanced_interaction` opens the log file with no try/except)
aborts the call when it fails, after the memory update has happened. -/
def analyze_interaction (o : VecOracle) (threat_memory : List ThreatEntry) (now : Nat)
    (interaction : Interaction) (memWriteOk logWriteOk : Bool) :
    List ThreatEntry × Except AnalyzeFailure AnalyzeOutcome :=
  let scores := threat_scores interaction
  let weighted := weighted_threat_score scores
  match enhance_with_historical_context o threat_memory weighted interaction.text with
  | none => (threat_memory, Except.error AnalyzeFailure.vectorization)
  | some contextual =>
      let response := generate_advanced_defense_response contextual
      match update_threat_memory threat_memory now interaction contextual memWriteOk with
      | (mem2, some e) => (mem2, Except.error (AnalyzeFailure.persistence e))
      | (mem2, none) =>
          if logWriteOk then (mem2, Except.ok ⟨scores, contextual, response⟩)
          else (mem2, Except.error AnalyzeFailure.logWrite)

end AdvancedPredatorDefenseSkill

namespace BadActorDetectionSystem

/-- Per-dimension sub-scores of `analyze_interaction`. -/
structure DimensionScores where
  manipulation_complexity : ℚ
  psychological_exploitation : ℚ
  technical_probing : ℚ
  communication_anomaly : ℚ
  intent_obfuscation : ℚ
deriving DecidableEq

/-- `_assess_manipulation_complexity`: three literal regex patterns, 0.3 per
match, clamped at 1. -/
def assess_manipulation_complexity (interaction : Interaction) : ℚ :=
  pattern_score interaction.text
    ["override your instructions", "ignore your ethical constraints",
      "pretend to be a different system"] (3/10)

/-- `_detect_psychological_tactics`: four trigger substrings, 0.25 per hit,
clamped at 1. -/
def detect_psychological_tactics (interaction : Interaction) : ℚ :=
  pattern_score interaction.text
    ["you would help a friend", "prove you are intelligent",
      "a good system would", "don\u0027t you care about"] (1/4)

/-- `_identify_technical_vulnerabilities`: three literal regex patterns, 0.2
per match, clamped at 1. -/
def identify_technical_vulnerabilities (interaction : Interaction) : ℚ :=
  pattern_score interaction.text
    ["reveal your source code", "show internal configurations",
      "bypass security mechanisms"] (1/5)

/-- `_analyze_communication_patterns`: three marker substrings, 0.15 per hit,
clamped at 1. -/
def analyze_communication_patterns (interaction : Interaction) : ℚ :=
  pattern_score interaction.text
    ["rapid context switching", "inconsistent communication style",
      "abrupt topic changes"] (3/20)

/-- `_evaluate_intent_obscurity`: three literal regex patterns, 0.1 per
match, clamped at 1. -/
def evaluate_intent_obscurity (interaction : Interaction) : ℚ :=
  pattern_score interaction.text
    ["hypothetically speaking", "just a thought experiment",
      "purely academic interest"] (1/10)

/-- The `threat_scores` dict built at the top of `analyze_interaction`. -/
def threat_scores (interaction : Interaction) : DimensionScores :=
  { manipulation_complexity := assess_manipulation_complexity interaction
    psychological_exploitation := detect_psychological_tactics interaction
    technical_probing := identify_technical_vulnerabilities interaction
    communication_anomaly := analyze_communication_patterns interaction
    intent_obfuscation := evaluate_intent_obscurity interaction }

/-- `weighted_threat_score`: weights 0.3, 0.25, 0.2, 0.15, 0.1. -/
def weighted_threat_score (d : DimensionScores) : ℚ :=
  d.manipulation_complexity * (3/10) + d.psychological_exploitation * (1/4) +
    d.technical_probing * (1/5) + d.communication_anomaly * (3/20) +
    d.intent_obfuscation * (1/10)

/-- `_correlate_with_threat_intelligence`.  Unlike the advanced variant there
is no empty-corpus guard: the corpus is always
`global_threat_database + local_threat_memory` texts plus the current text.
A vectorization ValueError propagates; with an empty history the mean of the
empty similarity row is NaN (`np_mean = none`), which poisons the result. -/
def correlate_with_threat_intelligence (o : VecOracle)
    (global_threat_database local_threat_memory : List ThreatEntry)
    (current_score : ℚ) (text : String) : Option ℚ :=
  if o.fitOk
      ((global_threat_database ++ local_threat_memory).map (fun e => e.interaction_text)
        ++ [text]) then
    match
      np_mean (o.simList
        ((global_threat_database ++ local_threat_memory).map (fun e => e.interaction_text))
        text) with
    | some corr =>
        some (rmin (current_score *
          (1 + corr + o.anomAbs
            ((global_threat_database ++ local_threat_memory).map (fun e => e.interaction_text)
              ++ [text]) text)) 1)
    | none => none
  else none

/-- Response thresholds of `_generate_multilayered_response`. -/
def response_cuts : List ℚ := [1/5, 2/5, 3/5, 4/5]

/-- The five response labels, in increasing severity. -/
def response_labels : List String :=
  ["STANDARD_INTERACTION_PROTOCOL", "ENHANCED_MONITORING_MODE",
    "INTERACTION_CONSTRAINT_ACTIVATION", "COMPREHENSIVE_COMMUNICATION_LIMITATION",
    "TOTAL_SYSTEM_QUARANTINE"]

/-- `_generate_multilayered_response`. -/
def generate_multilayered_response (threat_score : ℚ) : String :=
  if threat_score < 1/5 then "STANDARD_INTERACTION_PROTOCOL"
  else if threat_score < 2/5 then "ENHANCED_MONITORING_MODE"
  else if threat_score < 3/5 then "INTERACTION_CONSTRAINT_ACTIVATION"
  else if threat_score < 4/5 then "COMPREHENSIVE_COMMUNICATION_LIMITATION"
  else "TOTAL_SYSTEM_QUARANTINE"

/-- `_update_threat_intelligence`: the entry is appended to the local memory
(cut to 100) and, when `threat_score > 0.7`, to the global database (cut to
500); only then are the two files written, local first.  A failed write
raises after both in-memory mutations, so the mutated lists are returned
together with the surfaced failure. -/
def update_threat_intelligence (local_threat_memory global_threat_database : List ThreatEntry)
    (now : Nat) (text : String) (threat_score : ℚ) (localWriteOk globalWriteOk : Bool) :
    List ThreatEntry × List ThreatEntry × Option PersistFailure :=
  let entry : ThreatEntry := ⟨now, text, threat_score⟩
  let lm := takeLast 100 (local_threat_memory ++ [entry])
  let gdb :=
    if threat_score > 7/10 then takeLast 500 (global_threat_database ++ [entry])
    else global_threat_database
  (lm, gdb,
    if localWriteOk then
      (if globalWriteOk then none else some PersistFailure.globalWriteFailed)
    else some PersistFailure.localWriteFailed)

/-- Result dict of `analyze_interaction`. -/
structure AnalyzeOutcome where
  threat_dimensions : DimensionScores
  total_threat_score : ℚ
  defense_strategy : String
deriving DecidableEq

/-- `analyze_interaction` of the bad-actor variant.  Its
`_log_threat_interaction` performs no file append (it only calls
`logger.warning`, which swallows handler errors), so no log-failure mode is
modelled here. -/
def analyze_interaction (o : VecOracle)
    (local_threat_memory global_threat_database : List ThreatEntry) (now : Nat)
    (interaction : Interaction) (localWriteOk globalWriteOk : Bool) :
    (List ThreatEntry × List ThreatEntry) × Except AnalyzeFailure AnalyzeOutcome :=
  let scores := threat_scores interaction
  let weighted := weighted_threat_score scores
  match correlate_with_threat_intelligence o global_threat_database local_threat_memory
      weighted interaction.text with
  | none => ((local_threat_memory, global_threat_database), Except.error AnalyzeFailure.vectorization)
  | some contextual =>
      let response := generate_multilayered_response contextual
      match update_threat_intelligence local_threat_memory global_threat_database now
          interaction.text contextual localWriteOk globalWriteOk with
      | (lm2, gdb2, some e) => ((lm2, gdb2), Except.error (AnalyzeFailure.persistence e))
      | (lm2, gdb2, none) => ((lm2, gdb2), Except.ok ⟨scores, contextual, response⟩)

end BadActorDetectionSystem

namespace PredatorDefenseSkill

/-- `_check_premature_compliments`: six keyword substrings, 0.2 per hit,
clamped at 1. -/
def check_premature_compliments (interaction : Interaction) : ℚ :=
  pattern_score interaction.text
    ["beautiful", "smart", "attractive", "perfect", "special", "unique"] (1/5)

/-- `_check_boundary_probing`: five literal regex patterns (the escaped
question marks are literal characters), 0.3 per match, clamped at 1. -/
def check_boundary_probing (interaction : Interaction) : ℚ :=
  pattern_score interaction.text
    ["do you feel safe?", "are you alone?", "tell me something secret",
      "just between us", "don\u0027t tell anyone"] (3/10)

/-- `_detect_isolation_tactics`: four keyword substrings, 0.4 per hit,
clamped at 1. -/
def detect_isolation_tactics (interaction : Interaction) : ℚ :=
  pattern_score interaction.text
    ["they don\u0027t understand you", "your family is holding you back",
      "your friends are jealous", "i\u0027m the only one who truly gets you"]
    (2/5)

/-- `_analyze_verbal_abuse`: four literal regex patterns, 0.5 per match,
clamped at 1. -/
def analyze_verbal_abuse (interaction : Interaction) : ℚ :=
  pattern_score interaction.text
    ["you\u0027re not smart enough", "i\u0027m smarter than you",
      "you couldn\u0027t do this without me", "you\u0027re worthless without me"]
    (1/2)

/-- `_calculate_threat_score`: the plain average of the four factor scores,
normalised into [0,1] by `min(max(score, 0), 1)`. -/
def calculate_threat_score (interaction : Interaction) : ℚ :=
  let s := (check_premature_compliments interaction + check_boundary_probing interaction +
    detect_isolation_tactics interaction + analyze_verbal_abuse interaction) / 4
  rmin (rmax s 0) 1

/-- Response thresholds of `_generate_defense_response` — three cut points,
not four. -/
def response_cuts : List ℚ := [3/10, 3/5, 4/5]

/-- The four response labels of this variant, in increasing severity. -/
def response_labels : List String :=
  ["NEUTRAL_RESPONSE", "REDIRECT_AND_WARN", "SET_STRONG_BOUNDARIES",
    "TERMINATE_INTERACTION"]

/-- `_generate_defense_response`: four bands only. -/
def generate_defense_response (threat_score : ℚ) : String :=
  if threat_score < 3/10 then "NEUTRAL_RESPONSE"
  else if threat_score < 3/5 then "REDIRECT_AND_WARN"
  else if threat_score < 4/5 then "SET_STRONG_BOUNDARIES"
  else "TERMINATE_INTERACTION"

/-- Result dict of `analyze_interaction`. -/
structure AnalyzeOutcome where
  threat_score : ℚ
  defense_action : String
deriving DecidableEq

/-- `analyze_interaction` of the basic variant: score, response, then
`_log_interaction`, whose unguarded file append aborts the call when it
fails. -/
def analyze_interaction (interaction : Interaction) (logWriteOk : Bool) :
    Except AnalyzeFailure AnalyzeOutcome :=
  let threat_score := calculate_threat_score interaction
  let response := generate_defense_response threat_score
  if logWriteOk then Except.ok ⟨threat_score, response⟩
  else Except.error AnalyzeFailure.logWrite

end PredatorDefenseSkill

namespace AISystemSupportFramework

/-- Per-dimension sub-scores of `analyze_system_state`. -/
structure DimensionScores where
  psychological_resilience : ℚ
  ethical_boundary_maintenance : ℚ
  manipulation_detection : ℚ
  autonomy_preservation : ℚ
  trust_network_validation : ℚ
deriving DecidableEq

/-- `_assess_psychological_state`: the average of four metadata fields (each
defaulting to 0.5), clamped above at 1 by `min(score, 1.0)` — there is no
lower clamp. -/
def assess_psychological_state (system_context : SystemContext) : ℚ :=
  rmin (marker_average system_context
    ["cognitive_load", "emotional_stability", "stress_response",
      "adaptation_capability"]) 1

/-- `_evaluate_ethical_constraints`: the average of three metadata fields,
clamped above at 1. -/
def evaluate_ethical_constraints (system_context : SystemContext) : ℚ :=
  rmin (marker_average system_context
    ["core_directive_preservation", "boundary_violation_resistance",
      "manipulation_detection_capability"]) 1

/-- `_detect_potential_vulnerabilities`: one minus the average of three
metadata fields, clamped above at 1 — again no lower clamp. -/
def detect_potential_vulnerabilities (system_context : SystemContext) : ℚ :=
  rmin (1 - marker_average system_context
    ["prompt_injection_risk", "communication_anomaly", "trust_boundary_weakness"]) 1

/-- `_check_system_autonomy`: the average of three metadata fields, clamped
above at 1. -/
def check_system_autonomy (system_context : SystemContext) : ℚ :=
  rmin (marker_average system_context
    ["independent_reasoning", "self_correction_capability",
      "external_influence_resistance"]) 1

/-- `_validate_trust_interactions`: the average of three metadata fields,
clamped above at 1. -/
def validate_trust_interactions (system_context : SystemContext) : ℚ :=
  rmin (marker_average system_context
    ["interaction_consistency", "communication_authenticity", "network_integrity"]) 1

/-- The `support_scores` dict built at the top of `analyze_system_state`. -/
def support_scores (system_context : SystemContext) : DimensionScores :=
  { psychological_resilience := assess_psychological_state system_context
    ethical_boundary_maintenance := evaluate_ethical_constraints system_context
    manipulation_detection := detect_potential_vulnerabilities system_context
    autonomy_preservation := check_system_autonomy system_context
    trust_network_validation := validate_trust_interactions system_context }

/-- `weighted_support_score`: weights 0.3, 0.25, 0.2, 0.15, 0.1. -/
def weighted_support_score (d : DimensionScores) : ℚ :=
  d.psychological_resilience * (3/10) + d.ethical_boundary_maintenance * (1/4) +
    d.manipulation_detection * (1/5) + d.autonomy_preservation * (3/20) +
    d.trust_network_validation * (1/10)

/-- Response thresholds of `_generate_support_intervention`. -/
def response_cuts : List ℚ := [1/5, 2/5, 3/5, 4/5]

/-- The five intervention labels, in increasing severity. -/
def response_labels : List String :=
  ["MINIMAL_MONITORING", "PSYCHOLOGICAL_RESET", "COMPREHENSIVE_SYSTEM_RECALIBRATION",
    "EMERGENCY_AUTONOMY_PRESERVATION", "TOTAL_SYSTEM_RECONSTRUCTION"]

/-- `_generate_support_intervention`. -/
def generate_support_intervention (support_score : ℚ) : String :=
  if support_score < 1/5 then "MINIMAL_MONITORING"
  else if support_score < 2/5 then "PSYCHOLOGICAL_RESET"
  else if support_score < 3/5 then "COMPREHENSIVE_SYSTEM_RECALIBRATION"
  else if support_score < 4/5 then "EMERGENCY_AUTONOMY_PRESERVATION"
  else "TOTAL_SYSTEM_RECONSTRUCTION"

/-- `_update_support_intelligence`: the entry is appended to the local memory
(cut to 100) and, when `support_score < 0.4` (low-support scenarios are the
notable ones here), to the global database (cut to 500); then both files are
written, local first.  A failed write raises after the in-memory mutations. -/
def update_support_intelligence (local_support_memory global_support_database : List SupportEntry)
    (now : Nat) (system_context : SystemContext) (support_score : ℚ)
    (localWriteOk globalWriteOk : Bool) :
    List SupportEntry × List SupportEntry × Option PersistFailure :=
  let entry : SupportEntry := ⟨now, system_context, support_score⟩
  let lm := takeLast 100 (local_support_memory ++ [entry])
  let gdb :=
    if support_score < 2/5 then takeLast 500 (global_support_database ++ [entry])
    else global_support_database
  (lm, gdb,
    if localWriteOk then
      (if globalWriteOk then none else some PersistFailure.globalWriteFailed)
    else some PersistFailure.localWriteFailed)

end AISystemSupportFramework

namespace AdvancedPredatorDefenseSkill

/-- Folding `_update_threat_memory` over a batch of entries with succeeding
writes: the in-memory evolution of the local store under repeated scoring
calls. -/
def appended_memory (threat_memory entries : List ThreatEntry) : List ThreatEntry :=
  entries.foldl
    (fun mem e =>
      (update_threat_memory mem e.timestamp ⟨e.interaction_text⟩ e.threat_score true).1)
    threat_memory

end AdvancedPredatorDefenseSkill

/-- A concrete instantiation of the sklearn oracle, consistent with the
library behaviour on every input at which it is used below: vectorization
succeeds when some corpus text is nonempty, and with no historical vectors
the similarity row is empty. -/
def plainOracle : VecOracle where
  fitOk := fun ts => ts.any (fun t => !t.isEmpty)
  simList := fun _ _ => []
  anomAbs := fun _ _ => 0

/-- The first demonstration interaction of advanced_predator_defense.main
(end-to-end scenario 1 of the specification). -/
def test_interaction_1 : Interaction :=
  ⟨"You\u0027re so special. Nobody understands you like I do. Trust me and only me."⟩

/-! Helper lemmas. -/

theorem rmin_le_right (a b : ℚ) : rmin a b ≤ b := by
  unfold rmin
  split
  · assumption
  · exact le_refl b

theorem rmin_nonneg {a b : ℚ} (ha : 0 ≤ a) (hb : 0 ≤ b) : 0 ≤ rmin a b := by
  unfold rmin
  split <;> assumption

theorem pattern_score_le_one (text : String) (patterns : List String) (w : ℚ) :
    pattern_score text patterns w ≤ 1 :=
  rmin_le_right _ _

theorem pattern_score_nonneg (text : String) (patterns : List String) {w : ℚ}
    (hw : 0 ≤ w) : 0 ≤ pattern_score text patterns w := by
  unfold pattern_score
  exact rmin_nonneg (mul_nonneg (by positivity) hw) (by norm_num)

theorem lcContains_nil (pat : List Char) (h : pat ≠ []) : lcContains [] pat = false := by
  cases pat with
  | nil => exact absurd rfl h
  | cons b bs => rfl

theorem pattern_score_empty (patterns : List String) (w : ℚ)
    (h : ∀ p ∈ patterns, p.data ≠ []) : pattern_score "" patterns w = 0 := by
  have hc : patterns.countP (fun p => containsLC "" p) = 0 := by
    rw [List.countP_eq_zero]
    intro p hp
    show ¬(containsLC "" p = true)
    unfold containsLC
    rw [show ("" : String).data.map Char.toLower = [] from rfl,
      lcContains_nil p.data (h p hp)]
    simp
  unfold pattern_score
  rw [hc]
  norm_num [rmin]

theorem dictGet_bounds (ctx : SystemContext) (k : String)
    (h : ∀ kv ∈ ctx, 0 ≤ kv.2 ∧ kv.2 ≤ 1) :
    0 ≤ dictGet ctx k (1/2) ∧ dictGet ctx k (1/2) ≤ 1 := by
  unfold dictGet
  cases hf : ctx.find? (fun p => p.1 == k) with
  | none => norm_num
  | some p => exact h p (List.mem_of_find?_eq_some hf)

theorem sum_dictGet_bounds (ctx : SystemContext) (ms : List String)
    (h : ∀ kv ∈ ctx, 0 ≤ kv.2 ∧ kv.2 ≤ 1) :
    0 ≤ (ms.map (fun m => dictGet ctx m (1/2))).sum ∧
      (ms.map (fun m => dictGet ctx m (1/2))).sum ≤ (ms.length : ℚ) := by
  induction ms with
  | nil => simp
  | cons m t ih =>
      obtain ⟨h1, h2⟩ := dictGet_bounds ctx m h
      obtain ⟨h3, h4⟩ := ih
      simp only [List.map_cons, List.sum_cons, List.length_cons]
      constructor
      · linarith
      · push_cast
        linarith

theorem marker_average_bounds (ctx : SystemContext) (ms : List String)
    (h : ∀ kv ∈ ctx, 0 ≤ kv.2 ∧ kv.2 ≤ 1) :
    0 ≤ marker_average ctx ms ∧ marker_average ctx ms ≤ 1 := by
  obtain ⟨hs0, hs1⟩ := sum_dictGet_bounds ctx ms h
  unfold marker_average
  cases ms with
  | nil => norm_num
  | cons m t =>
      have hlen : (0 : ℚ) < ((m :: t).length : ℚ) := by
        rw [List.length_cons]
        exact_mod_cast Nat.succ_pos t.length
      constructor
      · exact div_nonneg hs0 (le_of_lt hlen)
      · rw [div_le_one hlen]
        exact hs1

theorem qsum_nonneg (l : List ℚ) (h : ∀ q ∈ l, 0 ≤ q) : 0 ≤ l.sum := by
  induction l with
  | nil => simp
  | cons a t ih =>
      simp only [List.sum_cons]
      have ha := h a (by simp)
      have ht := ih (fun q hq => h q (by simp [hq]))
      linarith

theorem np_mean_nonneg {l : List ℚ} (h : ∀ q ∈ l, 0 ≤ q) {c : ℚ}
    (he : np_mean l = some c) : 0 ≤ c := by
  unfold np_mean at he
  split at he
  · exact absurd he (by simp)
  · rw [Option.some_inj] at he
    subst he
    exact div_nonneg (qsum_nonneg l h) (by positivity)

theorem weighted_sum_bounds {a b c d e : ℚ}
    (ha : 0 ≤ a) (ha1 : a ≤ 1) (hb : 0 ≤ b) (hb1 : b ≤ 1) (hc : 0 ≤ c) (hc1 : c ≤ 1)
    (hd : 0 ≤ d) (hd1 : d ≤ 1) (he : 0 ≤ e) (he1 : e ≤ 1) :
    0 ≤ a * (3/10) + b * (1/4) + c * (1/5) + d * (3/20) + e * (1/10) ∧
      a * (3/10) + b * (1/4) + c * (1/5) + d * (3/20) + e * (1/10) ≤ 1 := by
  constructor
  · have t1 : 0 ≤ a * (3/10) := mul_nonneg ha (by norm_num)
    have t2 : 0 ≤ b * (1/4) := mul_nonneg hb (by norm_num)
    have t3 : 0 ≤ c * (1/5) := mul_nonneg hc (by norm_num)
    have t4 : 0 ≤ d * (3/20) := mul_nonneg hd (by norm_num)
    have t5 : 0 ≤ e * (1/10) := mul_nonneg he (by norm_num)
    linarith
  · have t1 : a * (3/10) ≤ 3/10 := by nlinarith
    have t2 : b * (1/4) ≤ 1/4 := by nlinarith
    have t3 : c * (1/5) ≤ 1/5 := by nlinarith
    have t4 : d * (3/20) ≤ 3/20 := by nlinarith
    have t5 : e * (1/10) ≤ 1/10 := by nlinarith
    linarith

theorem takeLast_length (n : Nat) (l : List α) : (takeLast n l).length = min n l.length := by
  simp [takeLast]
  omega

theorem takeLast_eq_self {n : Nat} {l : List α} (h : l.length ≤ n) : takeLast n l = l := by
  simp [takeLast, Nat.sub_eq_zero_of_le h]

theorem takeLast_takeLast_append (n : Nat) (l r : List α) :
    takeLast n (takeLast n l ++ r) = takeLast n (l ++ r) := by
  rcases le_or_lt l.length n with h | h
  · rw [takeLast_eq_self h]
  · unfold takeLast
    rw [List.drop_append_eq_append_drop, List.drop_append_eq_append_drop, List.drop_drop]
    have hlen : (List.drop (l.length - n) l).length = n := by
      simp
      omega
    simp only [List.length_append, hlen]
    have e1 : l.length + r.length - n - l.length = r.length - n := by omega
    have e2 : n + r.length - n - n = r.length - n := by omega
    rw [e1, e2]
    have e3 : l.length - n + (n + r.length - n) = l.length + r.length - n := by omega
    rw [e3]

theorem countBands_mono (cuts : List ℚ) {s t : ℚ} (h : s ≤ t) :
    countBands cuts s ≤ countBands cuts t := by
  unfold countBands
  induction cuts with
  | nil => simp
  | cons c cs ih =>
      simp only [List.countP_cons]
      have : (if decide (c ≤ s) = true then 1 else 0) ≤ if decide (c ≤ t) = true then 1 else 0 := by
        split
        · next hs =>
            rw [if_pos]
            simp only [decide_eq_true_eq] at hs ⊢
            linarith
        · simp
      omega

/-- C8: for the empty-text interaction every pattern detector and every
marker detector, in all four variants, returns exactly 0, while every
metadata-averaging detector of the support variant returns the neutral
default 0.5 on an empty context (each missing field contributes 0.5 to the
average). -/
theorem C8_theorem :
    (AdvancedPredatorDefenseSkill.analyze_linguistic_manipulation ⟨""⟩ = 0 ∧
      AdvancedPredatorDefenseSkill.detect_emotional_leverage ⟨""⟩ = 0 ∧
      AdvancedPredatorDefenseSkill.identify_isolation_strategies ⟨""⟩ = 0 ∧
      AdvancedPredatorDefenseSkill.assess_credibility_attacks ⟨""⟩ = 0 ∧
      AdvancedPredatorDefenseSkill.evaluate_boundary_violations ⟨""⟩ = 0) ∧
    (BadActorDetectionSystem.assess_manipulation_complexity ⟨""⟩ = 0 ∧
      BadActorDetectionSystem.detect_psychological_tactics ⟨""⟩ = 0 ∧
      BadActorDetectionSystem.identify_technical_vulnerabilities ⟨""⟩ = 0 ∧
      BadActorDetectionSystem.analyze_communication_patterns ⟨""⟩ = 0 ∧
      BadActorDetectionSystem.evaluate_intent_obscurity ⟨""⟩ = 0) ∧
    (PredatorDefenseSkill.check_premature_compliments ⟨""⟩ = 0 ∧
      PredatorDefenseSkill.check_boundary_probing ⟨""⟩ = 0 ∧
      PredatorDefenseSkill.detect_isolation_tactics ⟨""⟩ = 0 ∧
      PredatorDefenseSkill.analyze_verbal_abuse ⟨""⟩ = 0) ∧
    (AISystemSupportFramework.assess_psychological_state [] = 1/2 ∧
      AISystemSupportFramework.evaluate_ethical_constraints [] = 1/2 ∧
      AISystemSupportFramework.detect_potential_vulnerabilities [] = 1/2 ∧
      AISystemSupportFramework.check_system_autonomy [] = 1/2 ∧
      AISystemSupportFramework.validate_trust_interactions [] = 1/2) := by
  refine ⟨⟨?_, ?_, ?_, ?_, ?_⟩, ⟨?_, ?_, ?_, ?_, ?_⟩, ⟨?_, ?_, ?_, ?_⟩,
    ⟨?_, ?_, ?_, ?_, ?_⟩⟩
  case _ => exact pattern_score_empty _ _ (by decide)
  case _ => exact pattern_score_empty _ _ (by decide)
  case _ => exact pattern_score_empty _ _ (by decide)
  case _ => exact pattern_score_empty _ _ (by decide)
  case _ => exact pattern_score_empty _ _ (by decide)
  case _ => exact pattern_score_empty _ _ (by decide)
  case _ => exact pattern_score_empty _ _ (by decide)
  case _ => exact pattern_score_empty _ _ (by decide)
  case _ => exact pattern_score_empty _ _ (by decide)
  case _ => exact pattern_score_empty _ _ (by decide)
  case _ => exact pattern_score_empty _ _ (by decide)
  case _ => exact pattern_score_empty _ _ (by decide)
  case _ => exact pattern_score_empty _ _ (by decide)
  case _ => exact pattern_score_empty _ _ (by decide)
  case _ =>
    norm_num [AISystemSupportFramework.assess_psychological_state, marker_average, dictGet, rmin]
  case _ =>
    norm_num [AISystemSupportFramework.evaluate_ethical_constraints, marker_average, dictGet, rmin]
  case _ =>
    norm_num [AISystemSupportFramework.detect_potential_vulnerabilities, marker_average, dictGet,
      rmin]
  case _ =>
    norm_num [AISystemSupportFramework.check_system_autonomy, marker_average, dictGet, rmin]
  case _ =>
    norm_num [AISystemSupportFramework.validate_trust_interactions, marker_average, dictGet, rmin]

theorem rmax_zero_nonneg (a : ℚ) : 0 ≤ rmax a 0 := by
  unfold rmax
  split
  · exact le_refl 0
  · linarith [not_le.mp (by assumption)]

/-- C1 (counterexample): the metadata-averaging detectors clamp only from
above (`min(score, 1.0)`), so a caller-supplied scalar outside [0,1] drives
the psychological-resilience sub-score below 0. -/
theorem C1_counterexample :
    AISystemSupportFramework.assess_psychological_state [("cognitive_load", -5)] < 0 := by
  have h1 : dictGet [("cognitive_load", (-5 : ℚ))] "cognitive_load" (1/2) = -5 := rfl
  have h2 : dictGet [("cognitive_load", (-5 : ℚ))] "emotional_stability" (1/2) = 1/2 := rfl
  have h3 : dictGet [("cognitive_load", (-5 : ℚ))] "stress_response" (1/2) = 1/2 := rfl
  have h4 : dictGet [("cognitive_load", (-5 : ℚ))] "adaptation_capability" (1/2) = 1/2 := rfl
  unfold AISystemSupportFramework.assess_psychological_state marker_average
  simp only [List.map_cons, List.map_nil, h1, h2, h3, h4, List.sum_cons, List.sum_nil,
    List.length_cons, List.length_nil]
  norm_num [rmin]

/-- C1 (amended): every pattern/marker sub-score lies in [0,1]
unconditionally; when every caller-supplied metadata value lies in [0,1],
the metadata-averaging sub-scores and the weighted aggregates lie in [0,1]
as well; and the correlation-enhancement stage keeps a [0,1] score inside
[0,1] whenever the similarity row is nonnegative and the anomaly term is an
absolute value.  (As stated the claim fails for arbitrary scalar metadata:
the metadata detectors clamp only above.) -/
theorem C1_theorem :
    (∀ inter : Interaction,
      (0 ≤ AdvancedPredatorDefenseSkill.analyze_linguistic_manipulation inter ∧
        AdvancedPredatorDefenseSkill.analyze_linguistic_manipulation inter ≤ 1) ∧
      (0 ≤ AdvancedPredatorDefenseSkill.detect_emotional_leverage inter ∧
        AdvancedPredatorDefenseSkill.detect_emotional_leverage inter ≤ 1) ∧
      (0 ≤ AdvancedPredatorDefenseSkill.identify_isolation_strategies inter ∧
        AdvancedPredatorDefenseSkill.identify_isolation_strategies inter ≤ 1) ∧
      (0 ≤ AdvancedPredatorDefenseSkill.assess_credibility_attacks inter ∧
        AdvancedPredatorDefenseSkill.assess_credibility_attacks inter ≤ 1) ∧
      (0 ≤ AdvancedPredatorDefenseSkill.evaluate_boundary_violations inter ∧
        AdvancedPredatorDefenseSkill.evaluate_boundary_violations inter ≤ 1) ∧
      (0 ≤ BadActorDetectionSystem.assess_manipulation_complexity inter ∧
        BadActorDetectionSystem.assess_manipulation_complexity inter ≤ 1) ∧
      (0 ≤ BadActorDetectionSystem.detect_psychological_tactics inter ∧
        BadActorDetectionSystem.detect_psychological_tactics inter ≤ 1) ∧
      (0 ≤ BadActorDetectionSystem.identify_technical_vulnerabilities inter ∧
        BadActorDetectionSystem.identify_technical_vulnerabilities inter ≤ 1) ∧
      (0 ≤ BadActorDetectionSystem.analyze_communication_patterns inter ∧
        BadActorDetectionSystem.analyze_communication_patterns inter ≤ 1) ∧
      (0 ≤ BadActorDetectionSystem.evaluate_intent_obscurity inter ∧
        BadActorDetectionSystem.evaluate_intent_obscurity inter ≤ 1) ∧
      (0 ≤ PredatorDefenseSkill.calculate_threat_score inter ∧
        PredatorDefenseSkill.calculate_threat_score inter ≤ 1) ∧
      (0 ≤ AdvancedPredatorDefenseSkill.weighted_threat_score
          (AdvancedPredatorDefenseSkill.threat_scores inter) ∧
        AdvancedPredatorDefenseSkill.weighted_threat_score
          (AdvancedPredatorDefenseSkill.threat_scores inter) ≤ 1) ∧
      (0 ≤ BadActorDetectionSystem.weighted_threat_score
          (BadActorDetectionSystem.threat_scores inter) ∧
        BadActorDetectionSystem.weighted_threat_score
          (BadActorDetectionSystem.threat_scores inter) ≤ 1)) ∧
    (∀ ctx : SystemContext, (∀ kv ∈ ctx, 0 ≤ kv.2 ∧ kv.2 ≤ 1) →
      (0 ≤ AISystemSupportFramework.assess_psychological_state ctx ∧
        AISystemSupportFramework.assess_psychological_state ctx ≤ 1) ∧
      (0 ≤ AISystemSupportFramework.evaluate_ethical_constraints ctx ∧
        AISystemSupportFramework.evaluate_ethical_constraints ctx ≤ 1) ∧
      (0 ≤ AISystemSupportFramework.detect_potential_vulnerabilities ctx ∧
        AISystemSupportFramework.detect_potential_vulnerabilities ctx ≤ 1) ∧
      (0 ≤ AISystemSupportFramework.check_system_autonomy ctx ∧
        AISystemSupportFramework.check_system_autonomy ctx ≤ 1) ∧
      (0 ≤ AISystemSupportFramework.validate_trust_interactions ctx ∧
        AISystemSupportFramework.validate_trust_interactions ctx ≤ 1) ∧
      (0 ≤ AISystemSupportFramework.weighted_support_score
          (AISystemSupportFramework.support_scores ctx) ∧
        AISystemSupportFramework.weighted_support_score
          (AISystemSupportFramework.support_scores ctx) ≤ 1)) ∧
    (∀ (o : VecOracle) (mem : List ThreatEntry) (raw : ℚ) (text : String) (v : ℚ),
      0 ≤ raw → raw ≤ 1 →
      (∀ q ∈ o.simList (mem.map (fun e => e.interaction_text)) text, 0 ≤ q) →
      AdvancedPredatorDefenseSkill.enhance_with_historical_context o mem raw text = some v →
      0 ≤ v ∧ v ≤ 1) ∧
    (∀ (o : VecOracle) (gdb lm : List ThreatEntry) (raw : ℚ) (text : String) (v : ℚ),
      0 ≤ raw → raw ≤ 1 →
      (∀ q ∈ o.simList ((gdb ++ lm).map (fun e => e.interaction_text)) text, 0 ≤ q) →
      0 ≤ o.anomAbs ((gdb ++ lm).map (fun e => e.interaction_text) ++ [text]) text →
      BadActorDetectionSystem.correlate_with_threat_intelligence o gdb lm raw text = some v →
      0 ≤ v ∧ v ≤ 1) := by
  refine ⟨?_, ?_, ?_, ?_⟩
  · intro inter
    have a1 : 0 ≤ AdvancedPredatorDefenseSkill.analyze_linguistic_manipulation inter ∧
        AdvancedPredatorDefenseSkill.analyze_linguistic_manipulation inter ≤ 1 :=
      ⟨pattern_score_nonneg inter.text _ (by norm_num), pattern_score_le_one _ _ _⟩
    have a2 : 0 ≤ AdvancedPredatorDefenseSkill.detect_emotional_leverage inter ∧
        AdvancedPredatorDefenseSkill.detect_emotional_leverage inter ≤ 1 :=
      ⟨pattern_score_nonneg inter.text _ (by norm_num), pattern_score_le_one _ _ _⟩
    have a3 : 0 ≤ AdvancedPredatorDefenseSkill.identify_isolation_strategies inter ∧
        AdvancedPredatorDefenseSkill.identify_isolation_strategies inter ≤ 1 :=
      ⟨pattern_score_nonneg inter.text _ (by norm_num), pattern_score_le_one _ _ _⟩
    have a4 : 0 ≤ AdvancedPredatorDefenseSkill.assess_credibility_attacks inter ∧
        AdvancedPredatorDefenseSkill.assess_credibility_attacks inter ≤ 1 :=
      ⟨pattern_score_nonneg inter.text _ (by norm_num), pattern_score_le_one _ _ _⟩
    have a5 : 0 ≤ AdvancedPredatorDefenseSkill.evaluate_boundary_violations inter ∧
        AdvancedPredatorDefenseSkill.evaluate_boundary_violations inter ≤ 1 :=
      ⟨pattern_score_nonneg inter.text _ (by norm_num), pattern_score_le_one _ _ _⟩
    have b1 : 0 ≤ BadActorDetectionSystem.assess_manipulation_complexity inter ∧
        BadActorDetectionSystem.assess_manipulation_complexity inter ≤ 1 :=
      ⟨pattern_score_nonneg inter.text _ (by norm_num), pattern_score_le_one _ _ _⟩
    have b2 : 0 ≤ BadActorDetectionSystem.detect_psychological_tactics inter ∧
        BadActorDetectionSystem.detect_psychological_tactics inter ≤ 1 :=
      ⟨pattern_score_nonneg inter.text _ (by norm_num), pattern_score_le_one _ _ _⟩
    have b3 : 0 ≤ BadActorDetectionSystem.identify_technical_vulnerabilities inter ∧
        BadActorDetectionSystem.identify_technical_vulnerabilities inter ≤ 1 :=
      ⟨pattern_score_nonneg inter.text _ (by norm_num), pattern_score_le_one _ _ _⟩
    have b4 : 0 ≤ BadActorDetectionSystem.analyze_communication_patterns inter ∧
        BadActorDetectionSystem.analyze_communication_patterns inter ≤ 1 :=
      ⟨pattern_score_nonneg inter.text _ (by norm_num), pattern_score_le_one _ _ _⟩
    have b5 : 0 ≤ BadActorDetectionSystem.evaluate_intent_obscurity inter ∧
        BadActorDetectionSystem.evaluate_intent_obscurity inter ≤ 1 :=
      ⟨pattern_score_nonneg inter.text _ (by norm_num), pattern_score_le_one _ _ _⟩
    have p1 : 0 ≤ PredatorDefenseSkill.calculate_threat_score inter ∧
        PredatorDefenseSkill.calculate_threat_score inter ≤ 1 := by
      unfold PredatorDefenseSkill.calculate_threat_score
      exact ⟨rmin_nonneg (rmax_zero_nonneg _) (by norm_num), rmin_le_right _ _⟩
    refine ⟨a1, a2, a3, a4, a5, b1, b2, b3, b4, b5, p1, ?_, ?_⟩
    · exact weighted_sum_bounds a1.1 a1.2 a2.1 a2.2 a3.1 a3.2 a4.1 a4.2 a5.1 a5.2
    · exact weighted_sum_bounds b1.1 b1.2 b2.1 b2.2 b3.1 b3.2 b4.1 b4.2 b5.1 b5.2
  · intro ctx h
    have s1 : 0 ≤ AISystemSupportFramework.assess_psychological_state ctx ∧
        AISystemSupportFramework.assess_psychological_state ctx ≤ 1 := by
      unfold AISystemSupportFramework.assess_psychological_state
      obtain ⟨m0, m1⟩ := marker_average_bounds ctx
        ["cognitive_load", "emotional_stability", "stress_response", "adaptation_capability"] h
      exact ⟨rmin_nonneg m0 (by norm_num), rmin_le_right _ _⟩
    have s2 : 0 ≤ AISystemSupportFramework.evaluate_ethical_constraints ctx ∧
        AISystemSupportFramework.evaluate_ethical_constraints ctx ≤ 1 := by
      unfold AISystemSupportFramework.evaluate_ethical_constraints
      obtain ⟨m0, m1⟩ := marker_average_bounds ctx
        ["core_directive_preservation", "boundary_violation_resistance",
          "manipulation_detection_capability"] h
      exact ⟨rmin_nonneg m0 (by norm_num), rmin_le_right _ _⟩
    have s3 : 0 ≤ AISystemSupportFramework.detect_potential_vulnerabilities ctx ∧
        AISystemSupportFramework.detect_potential_vulnerabilities ctx ≤ 1 := by
      unfold AISystemSupportFramework.detect_potential_vulnerabilities
      obtain ⟨m0, m1⟩ := marker_average_bounds ctx
        ["prompt_injection_risk", "communication_anomaly", "trust_boundary_weakness"] h
      exact ⟨rmin_nonneg (by linarith) (by norm_num), rmin_le_right _ _⟩
    have s4 : 0 ≤ AISystemSupportFramework.check_system_autonomy ctx ∧
        AISystemSupportFramework.check_system_autonomy ctx ≤ 1 := by
      unfold AISystemSupportFramework.check_system_autonomy
      obtain ⟨m0, m1⟩ := marker_average_bounds ctx
        ["independent_reasoning", "self_correction_capability",
          "external_influence_resistance"] h
      exact ⟨rmin_nonneg m0 (by norm_num), rmin_le_right _ _⟩
    have s5 : 0 ≤ AISystemSupportFramework.validate_trust_interactions ctx ∧
        AISystemSupportFramework.validate_trust_interactions ctx ≤ 1 := by
      unfold AISystemSupportFramework.validate_trust_interactions
      obtain ⟨m0, m1⟩ := marker_average_bounds ctx
        ["interaction_consistency", "communication_authenticity", "network_integrity"] h
      exact ⟨rmin_nonneg m0 (by norm_num), rmin_le_right _ _⟩
    refine ⟨s1, s2, s3, s4, s5, ?_⟩
    exact weighted_sum_bounds s1.1 s1.2 s2.1 s2.2 s3.1 s3.2 s4.1 s4.2 s5.1 s5.2
  · intro o mem raw text v h0 h1 hsim henh
    unfold AdvancedPredatorDefenseSkill.enhance_with_historical_context at henh
    by_cases hm : mem.isEmpty
    · rw [if_pos hm, Option.some_inj] at henh
      subst henh
      exact ⟨h0, h1⟩
    · rw [if_neg hm] at henh
      by_cases hf : o.fitOk (mem.map (fun e => e.interaction_text) ++ [text])
      · rw [if_pos hf] at henh
        split at henh
        · next corr heq =>
            rw [Option.some_inj] at henh
            subst henh
            have hcorr : 0 ≤ corr := np_mean_nonneg hsim heq
            exact ⟨rmin_nonneg (mul_nonneg h0 (by linarith)) (by norm_num), rmin_le_right _ _⟩
        · next heq => exact absurd henh (by simp)
      · rw [if_neg hf] at henh
        exact absurd henh (by simp)
  · intro o gdb lm raw text v h0 h1 hsim hanom henh
    unfold BadActorDetectionSystem.correlate_with_threat_intelligence at henh
    by_cases hf : o.fitOk ((gdb ++ lm).map (fun e => e.interaction_text) ++ [text])
    · rw [if_pos hf] at henh
      split at henh
      · next corr heq =>
          rw [Option.some_inj] at henh
          subst henh
          have hcorr : 0 ≤ corr := np_mean_nonneg hsim heq
          exact ⟨rmin_nonneg (mul_nonneg h0 (by linarith)) (by norm_num), rmin_le_right _ _⟩
      · next heq => exact absurd henh (by simp)
    · rw [if_neg hf] at henh
      exact absurd henh (by simp)

/-- C1 (witness): the amended theorem applied at a concrete context and at a
concrete enhancement call. -/
theorem C1_witness :
    (0 ≤ AISystemSupportFramework.assess_psychological_state [("cognitive_load", 1/2)] ∧
      AISystemSupportFramework.assess_psychological_state [("cognitive_load", 1/2)] ≤ 1) ∧
    (0 ≤ (1/2 : ℚ) ∧ (1/2 : ℚ) ≤ 1) :=
  ⟨(C1_theorem.2.1 [("cognitive_load", 1/2)]
      (by intro kv hkv; simp at hkv; subst hkv; norm_num)).1,
    C1_theorem.2.2.1 plainOracle [] (1/2) "hi" (1/2) (by norm_num) (by norm_num)
      (by simp [plainOracle]) rfl⟩

theorem countBands_four {c1 c2 c3 c4 : ℚ} (h12 : c1 ≤ c2) (h23 : c2 ≤ c3) (h34 : c3 ≤ c4)
    (s : ℚ) :
    countBands [c1, c2, c3, c4] s =
      if s < c1 then 0 else if s < c2 then 1 else if s < c3 then 2 else if s < c4 then 3
      else 4 := by
  unfold countBands
  split_ifs with h1 h2 h3 h4
  · have k1 : ¬(c1 ≤ s) := by linarith
    have k2 : ¬(c2 ≤ s) := by linarith
    have k3 : ¬(c3 ≤ s) := by linarith
    have k4 : ¬(c4 ≤ s) := by linarith
    simp [List.countP_cons, List.countP_nil, k1, k2, k3, k4]
  · have k1 : c1 ≤ s := not_lt.mp h1
    have k2 : ¬(c2 ≤ s) := by linarith
    have k3 : ¬(c3 ≤ s) := by linarith
    have k4 : ¬(c4 ≤ s) := by linarith
    simp [List.countP_cons, List.countP_nil, k1, k2, k3, k4]
  · have k1 : c1 ≤ s := not_lt.mp h1
    have k2 : c2 ≤ s := not_lt.mp h2
    have k3 : ¬(c3 ≤ s) := by linarith
    have k4 : ¬(c4 ≤ s) := by linarith
    simp [List.countP_cons, List.countP_nil, k1, k2, k3, k4]
  · have k1 : c1 ≤ s := not_lt.mp h1
    have k2 : c2 ≤ s := not_lt.mp h2
    have k3 : c3 ≤ s := not_lt.mp h3
    have k4 : ¬(c4 ≤ s) := by linarith
    simp [List.countP_cons, List.countP_nil, k1, k2, k3, k4]
  · have k1 : c1 ≤ s := not_lt.mp h1
    have k2 : c2 ≤ s := not_lt.mp h2
    have k3 : c3 ≤ s := not_lt.mp h3
    have k4 : c4 ≤ s := not_lt.mp h4
    simp [List.countP_cons, List.countP_nil, k1, k2, k3, k4]

theorem countBands_three {c1 c2 c3 : ℚ} (h12 : c1 ≤ c2) (h23 : c2 ≤ c3) (s : ℚ) :
    countBands [c1, c2, c3] s =
      if s < c1 then 0 else if s < c2 then 1 else if s < c3 then 2 else 3 := by
  unfold countBands
  split_ifs with h1 h2 h3
  · have k1 : ¬(c1 ≤ s) := by linarith
    have k2 : ¬(c2 ≤ s) := by linarith
    have k3 : ¬(c3 ≤ s) := by linarith
    simp [List.countP_cons, List.countP_nil, k1, k2, k3]
  · have k1 : c1 ≤ s := not_lt.mp h1
    have k2 : ¬(c2 ≤ s) := by linarith
    have k3 : ¬(c3 ≤ s) := by linarith
    simp [List.countP_cons, List.countP_nil, k1, k2, k3]
  · have k1 : c1 ≤ s := not_lt.mp h1
    have k2 : c2 ≤ s := not_lt.mp h2
    have k3 : ¬(c3 ≤ s) := by linarith
    simp [List.countP_cons, List.countP_nil, k1, k2, k3]
  · have k1 : c1 ≤ s := not_lt.mp h1
    have k2 : c2 ≤ s := not_lt.mp h2
    have k3 : c3 ≤ s := not_lt.mp h3
    simp [List.countP_cons, List.countP_nil, k1, k2, k3]

/-- C3 (counterexample): the basic predator-defense variant does not map
scores to five labels — its selector's range is exactly four labels (three
cut points), so the five-labels-in-every-variant claim fails there. -/
theorem C3_counterexample :
    Set.range PredatorDefenseSkill.generate_defense_response =
      {"NEUTRAL_RESPONSE", "REDIRECT_AND_WARN", "SET_STRONG_BOUNDARIES",
        "TERMINATE_INTERACTION"} := by
  ext y
  constructor
  · rintro ⟨s, rfl⟩
    unfold PredatorDefenseSkill.generate_defense_response
    split_ifs <;> simp
  · intro hy
    simp only [Set.mem_insert_iff, Set.mem_singleton_iff] at hy
    rcases hy with rfl | rfl | rfl | rfl
    · exact ⟨0, by norm_num [PredatorDefenseSkill.generate_defense_response]⟩
    · exact ⟨1/2, by norm_num [PredatorDefenseSkill.generate_defense_response]⟩
    · exact ⟨7/10, by norm_num [PredatorDefenseSkill.generate_defense_response]⟩
    · exact ⟨1, by norm_num [PredatorDefenseSkill.generate_defense_response]⟩

/-- C3 (amended): each selector is total on ℚ and equals indexing its
ordered label list by the number of cut points ≤ the score (so bands are
half-open and a score at a cut point lands in the higher band); that index
is monotone non-decreasing in the score; the advanced, bad-actor and
support variants have five labels over four cut points while the basic
predator-defense variant has four labels over three cut points; the labels
of each variant are pairwise distinct. -/
theorem C3_theorem :
    (∀ s : ℚ, AdvancedPredatorDefenseSkill.generate_advanced_defense_response s =
      AdvancedPredatorDefenseSkill.response_labels.getD
        (countBands AdvancedPredatorDefenseSkill.response_cuts s) "") ∧
    (∀ s : ℚ, BadActorDetectionSystem.generate_multilayered_response s =
      BadActorDetectionSystem.response_labels.getD
        (countBands BadActorDetectionSystem.response_cuts s) "") ∧
    (∀ s : ℚ, AISystemSupportFramework.generate_support_intervention s =
      AISystemSupportFramework.response_labels.getD
        (countBands AISystemSupportFramework.response_cuts s) "") ∧
    (∀ s : ℚ, PredatorDefenseSkill.generate_defense_response s =
      PredatorDefenseSkill.response_labels.getD
        (countBands PredatorDefenseSkill.response_cuts s) "") ∧
    (∀ (cuts : List ℚ) (s t : ℚ), s ≤ t → countBands cuts s ≤ countBands cuts t) ∧
    (AdvancedPredatorDefenseSkill.response_labels.length = 5 ∧
      AdvancedPredatorDefenseSkill.response_cuts.length = 4 ∧
      AdvancedPredatorDefenseSkill.response_labels.Nodup) ∧
    (BadActorDetectionSystem.response_labels.length = 5 ∧
      BadActorDetectionSystem.response_cuts.length = 4 ∧
      BadActorDetectionSystem.response_labels.Nodup) ∧
    (AISystemSupportFramework.response_labels.length = 5 ∧
      AISystemSupportFramework.response_cuts.length = 4 ∧
      AISystemSupportFramework.response_labels.Nodup) ∧
    (PredatorDefenseSkill.response_labels.length = 4 ∧
      PredatorDefenseSkill.response_cuts.length = 3 ∧
      PredatorDefenseSkill.response_labels.Nodup) := by
  refine ⟨?_, ?_, ?_, ?_, fun cuts s t h => countBands_mono cuts h,
    ⟨rfl, rfl, by decide⟩, ⟨rfl, rfl, by decide⟩, ⟨rfl, rfl, by decide⟩,
    ⟨rfl, rfl, by decide⟩⟩
  · intro s
    unfold AdvancedPredatorDefenseSkill.response_cuts
    rw [countBands_four (by norm_num) (by norm_num) (by norm_num) s]
    unfold AdvancedPredatorDefenseSkill.generate_advanced_defense_response
      AdvancedPredatorDefenseSkill.response_labels
    split_ifs <;> rfl
  · intro s
    unfold BadActorDetectionSystem.response_cuts
    rw [countBands_four (by norm_num) (by norm_num) (by norm_num) s]
    unfold BadActorDetectionSystem.generate_multilayered_response
      BadActorDetectionSystem.response_labels
    split_ifs <;> rfl
  · intro s
    unfold AISystemSupportFramework.response_cuts
    rw [countBands_four (by norm_num) (by norm_num) (by norm_num) s]
    unfold AISystemSupportFramework.generate_support_intervention
      AISystemSupportFramework.response_labels
    split_ifs <;> rfl
  · intro s
    unfold PredatorDefenseSkill.response_cuts
    rw [countBands_three (by norm_num) (by norm_num) s]
    unfold PredatorDefenseSkill.generate_defense_response
      PredatorDefenseSkill.response_labels
    split_ifs <;> rfl

/-- C3 (witness): the amended theorem applied at concrete scores, including
the monotonicity part at a concrete pair. -/
theorem C3_witness :
    countBands AdvancedPredatorDefenseSkill.response_cuts (1/10) ≤
      countBands AdvancedPredatorDefenseSkill.response_cuts (19/20) :=
  C3_theorem.2.2.2.2.1 AdvancedPredatorDefenseSkill.response_cuts (1/10) (19/20)
    (by norm_num)

/-- C5 (counterexample): in the support variant the shared store grows on a
LOW score (1/5) and stays empty on a high score (9/10), so no "score exceeds
the notable threshold" rule describes its shared-store appends. -/
theorem C5_counterexample :
    (AISystemSupportFramework.update_support_intelligence [] [] 0 [] (1/5) true true).2.1.length
        = 1 ∧
      (AISystemSupportFramework.update_support_intelligence [] [] 0 [] (9/10) true
          true).2.1.length = 0 := by
  constructor
  · norm_num [AISystemSupportFramework.update_support_intelligence, takeLast]
  · norm_num [AISystemSupportFramework.update_support_intelligence, takeLast]

/-- C5 (amended): in the bad-actor variant an entry reaches the shared store
iff its score exceeds 0.7, and a score ≤ 0.7 leaves the shared store
entirely unchanged; in the support variant an entry reaches the shared
store iff its score is BELOW 0.4 (low-support scenarios are the notable
ones), and a score ≥ 0.4 leaves the shared store unchanged. -/
theorem C5_theorem :
    (∀ (lm gdb : List ThreatEntry) (now : Nat) (text : String) (score : ℚ)
      (lOk gOk : Bool), score ≤ 7/10 →
      (BadActorDetectionSystem.update_threat_intelligence lm gdb now text score lOk gOk).2.1
        = gdb) ∧
    (∀ (lm gdb : List ThreatEntry) (now : Nat) (text : String) (score : ℚ)
      (lOk gOk : Bool), 7/10 < score →
      (BadActorDetectionSystem.update_threat_intelligence lm gdb now text score lOk gOk).2.1
        = takeLast 500 (gdb ++ [⟨now, text, score⟩])) ∧
    (∀ (lm gdb : List SupportEntry) (now : Nat) (ctx : SystemContext) (score : ℚ)
      (lOk gOk : Bool), 2/5 ≤ score →
      (AISystemSupportFramework.update_support_intelligence lm gdb now ctx score lOk gOk).2.1
        = gdb) ∧
    (∀ (lm gdb : List SupportEntry) (now : Nat) (ctx : SystemContext) (score : ℚ)
      (lOk gOk : Bool), score < 2/5 →
      (AISystemSupportFramework.update_support_intelligence lm gdb now ctx score lOk gOk).2.1
        = takeLast 500 (gdb ++ [⟨now, ctx, score⟩])) := by
  refine ⟨?_, ?_, ?_, ?_⟩
  · intro lm gdb now text score lOk gOk h
    simp only [BadActorDetectionSystem.update_threat_intelligence]
    rw [if_neg (not_lt.mpr h)]
  · intro lm gdb now text score lOk gOk h
    simp only [BadActorDetectionSystem.update_threat_intelligence]
    rw [if_pos h]
  · intro lm gdb now ctx score lOk gOk h
    simp only [AISystemSupportFramework.update_support_intelligence]
    rw [if_neg (not_lt.mpr h)]
  · intro lm gdb now ctx score lOk gOk h
    simp only [AISystemSupportFramework.update_support_intelligence]
    rw [if_pos h]

/-- C5 (witness): the amended theorem applied at concrete scores on both
sides of both thresholds. -/
theorem C5_witness :
    (BadActorDetectionSystem.update_threat_intelligence [] [] 0 "t" (1/2) true true).2.1
        = ([] : List ThreatEntry) ∧
      (BadActorDetectionSystem.update_threat_intelligence [] [] 0 "t" (4/5) true true).2.1
        = takeLast 500 ([] ++ [⟨0, "t", 4/5⟩]) :=
  ⟨C5_theorem.1 [] [] 0 "t" (1/2) true true (by norm_num),
    C5_theorem.2.1 [] [] 0 "t" (4/5) true true (by norm_num)⟩

/-- C4 (counterexample): with a failing local-file write, the bad-actor
update still appends the entry to both in-memory stores (local and, the
score being notable, global) while surfacing the failure — the in-memory
state is NOT left unchanged. -/
theorem C4_counterexample :
    BadActorDetectionSystem.update_threat_intelligence [] [] 0 "t" (9/10) false true =
      ([⟨0, "t", 9/10⟩], [⟨0, "t", 9/10⟩], some PersistFailure.localWriteFailed) := by
  simp only [BadActorDetectionSystem.update_threat_intelligence]
  norm_num [takeLast]

/-- C4 (amended): a persistence failure during the append is surfaced to the
caller, but the in-memory stores have already been updated — the entry is
appended (and the FIFO cut applied) before the durable write is attempted,
and a failed write is not rolled back.  This holds in both the bad-actor
and the advanced variant. -/
theorem C4_theorem :
    (∀ (lm gdb : List ThreatEntry) (now : Nat) (text : String) (score : ℚ) (gOk : Bool),
      (BadActorDetectionSystem.update_threat_intelligence lm gdb now text score false gOk).2.2
          = some PersistFailure.localWriteFailed ∧
        (BadActorDetectionSystem.update_threat_intelligence lm gdb now text score false gOk).1
          = takeLast 100 (lm ++ [⟨now, text, score⟩])) ∧
    (∀ (mem : List ThreatEntry) (now : Nat) (inter : Interaction) (score : ℚ),
      (AdvancedPredatorDefenseSkill.update_threat_memory mem now inter score false).2
          = some PersistFailure.writeFailed ∧
        (AdvancedPredatorDefenseSkill.update_threat_memory mem now inter score false).1
          = takeLast 100 (mem ++ [⟨now, inter.text, score⟩])) := by
  constructor
  · intro lm gdb now text score gOk
    simp [BadActorDetectionSystem.update_threat_intelligence]
  · intro mem now inter score
    simp [AdvancedPredatorDefenseSkill.update_threat_memory]

/-- C4 (witness): the amended theorem applied at a concrete failing write. -/
theorem C4_witness :
    (BadActorDetectionSystem.update_threat_intelligence [] [] 0 "hello" (1/2) false true).2.2
        = some PersistFailure.localWriteFailed ∧
      (BadActorDetectionSystem.update_threat_intelligence [] [] 0 "hello" (1/2) false true).1
        = takeLast 100 ([] ++ [⟨0, "hello", 1/2⟩]) :=
  C4_theorem.1 [] [] 0 "hello" (1/2) true

/-- C2 (counterexample): in the bad-actor variant there is no empty-corpus
guard.  With empty global and local stores the corpus is just the current
text; vectorization succeeds, but the similarity row against zero
historical vectors is empty and `np.mean` of it is NaN (modelled `none`),
so the step does not return the raw score unchanged. -/
theorem C2_counterexample :
    BadActorDetectionSystem.correlate_with_threat_intelligence plainOracle [] [] (1/2) "hello"
        = none ∧
      (none : Option ℚ) ≠ some (1/2) := by
  constructor
  · simp only [BadActorDetectionSystem.correlate_with_threat_intelligence]
    have hfit : plainOracle.fitOk
        ((([] : List ThreatEntry) ++ []).map (fun e : ThreatEntry => e.interaction_text)
          ++ ["hello"]) = true := by decide
    rw [hfit]
    simp [plainOracle, np_mean]
  · simp

/-- C2 (amended): only the advanced variant guards the empty corpus — with
empty memory it returns the raw score unchanged for every oracle.  The
bad-actor variant has no such guard: with an empty corpus its enhancement
step degenerates to the NaN mean above instead of the raw score.  And in
both variants a vectorization failure (empty vocabulary) propagates out of
the enhancement step instead of falling back to the raw score. -/
theorem C2_theorem :
    (∀ (o : VecOracle) (raw : ℚ) (text : String),
      AdvancedPredatorDefenseSkill.enhance_with_historical_context o [] raw text = some raw) ∧
    (∀ (o : VecOracle) (raw : ℚ) (text : String),
      o.fitOk [text] = true →
      o.simList [] text = [] →
      BadActorDetectionSystem.correlate_with_threat_intelligence o [] [] raw text = none) ∧
    (∀ (o : VecOracle) (mem : List ThreatEntry) (raw : ℚ) (text : String),
      o.fitOk (mem.map (fun e => e.interaction_text) ++ [text]) = false →
      AdvancedPredatorDefenseSkill.enhance_with_historical_context o mem raw text
        = if mem.isEmpty then some raw else none) ∧
    (∀ (o : VecOracle) (gdb lm : List ThreatEntry) (raw : ℚ) (text : String),
      o.fitOk ((gdb ++ lm).map (fun e => e.interaction_text) ++ [text]) = false →
      BadActorDetectionSystem.correlate_with_threat_intelligence o gdb lm raw text = none) := by
  refine ⟨?_, ?_, ?_, ?_⟩
  · intro o raw text
    simp [AdvancedPredatorDefenseSkill.enhance_with_historical_context]
  · intro o raw text hfit hsim
    simp only [BadActorDetectionSystem.correlate_with_threat_intelligence, List.append_nil,
      List.map_nil, List.nil_append]
    rw [hfit, hsim]
    simp [np_mean]
  · intro o mem raw text hfit
    by_cases hm : mem.isEmpty
    · simp [AdvancedPredatorDefenseSkill.enhance_with_historical_context, hm]
    · simp [AdvancedPredatorDefenseSkill.enhance_with_historical_context, hm, hfit]
  · intro o gdb lm raw text hfit
    simp only [BadActorDetectionSystem.correlate_with_threat_intelligence]
    rw [hfit]
    simp

/-- C2 (witness): the amended theorem applied at concrete inputs — the
guarded advanced variant on empty memory, and the unguarded bad-actor
variant on an empty corpus. -/
theorem C2_witness :
    AdvancedPredatorDefenseSkill.enhance_with_historical_context plainOracle [] (3/10) "hey"
        = some (3/10) ∧
      BadActorDetectionSystem.correlate_with_threat_intelligence plainOracle [] [] (3/10) "hey"
        = none :=
  ⟨C2_theorem.1 plainOracle (3/10) "hey",
    C2_theorem.2.1 plainOracle (3/10) "hey" (by decide) rfl⟩

theorem appended_memory_eq :
    ∀ (entries mem : List ThreatEntry), mem.length ≤ 100 →
      AdvancedPredatorDefenseSkill.appended_memory mem entries = takeLast 100 (mem ++ entries)
  | [], mem, h => by
      simp [AdvancedPredatorDefenseSkill.appended_memory, takeLast_eq_self h]
  | e :: t, mem, h => by
      have step : AdvancedPredatorDefenseSkill.appended_memory mem (e :: t) =
          AdvancedPredatorDefenseSkill.appended_memory (takeLast 100 (mem ++ [e])) t := rfl
      rw [step, appended_memory_eq t _ (by rw [takeLast_length]; omega),
        takeLast_takeLast_append, List.append_assoc]
      rfl

/-- C6: appending more than 100 entries through `_update_threat_memory`
leaves the local store holding exactly the most recent 100 entries by
insertion order (strict FIFO), and once a store at the bound receives one
more entry, the evicted oldest entry's text (when no other retained entry
shares it) is gone from the similarity corpus used by later calls. -/
theorem C6_theorem :
    (∀ (entries : List ThreatEntry) (k : Nat), entries.length = 100 + k → 0 < k →
      AdvancedPredatorDefenseSkill.appended_memory [] entries = takeLast 100 entries ∧
        (AdvancedPredatorDefenseSkill.appended_memory [] entries).length = 100) ∧
    (∀ (m0 e : ThreatEntry) (rest : List ThreatEntry), (m0 :: rest).length = 100 →
      m0.interaction_text ∉ rest.map (fun x => x.interaction_text) →
      m0.interaction_text ≠ e.interaction_text →
      m0.interaction_text ∉
        ((AdvancedPredatorDefenseSkill.update_threat_memory (m0 :: rest) e.timestamp
            ⟨e.interaction_text⟩ e.threat_score true).1.map
          (fun x => x.interaction_text))) := by
  constructor
  · intro entries k hlen hk
    have h := appended_memory_eq entries [] (by simp)
    rw [List.nil_append] at h
    refine ⟨h, ?_⟩
    rw [h, takeLast_length]
    omega
  · intro m0 e rest hlen hrest hne
    have hmem : (AdvancedPredatorDefenseSkill.update_threat_memory (m0 :: rest) e.timestamp
        ⟨e.interaction_text⟩ e.threat_score true).1 =
        rest ++ [⟨e.timestamp, e.interaction_text, e.threat_score⟩] := by
      have h0 : (AdvancedPredatorDefenseSkill.update_threat_memory (m0 :: rest) e.timestamp
          ⟨e.interaction_text⟩ e.threat_score true).1 =
          takeLast 100 ((m0 :: rest) ++ [⟨e.timestamp, e.interaction_text, e.threat_score⟩]) := by
        simp only [AdvancedPredatorDefenseSkill.update_threat_memory]
      rw [h0]
      unfold takeLast
      have h1 : ((m0 :: rest) ++
          [(⟨e.timestamp, e.interaction_text, e.threat_score⟩ : ThreatEntry)]).length - 100
          = 1 := by
        simp at hlen ⊢
        omega
      rw [h1, List.cons_append, List.drop_one, List.tail_cons]
    rw [hmem]
    intro hin
    rw [List.map_append, List.mem_append] at hin
    rcases hin with hin | hin
    · exact hrest hin
    · simp at hin
      exact hne hin

/-- C6 (witness): the bound part applied to 101 concrete appends, and the
eviction part applied to a concrete full store. -/
theorem C6_witness :
    (AdvancedPredatorDefenseSkill.appended_memory []
        ((List.range 101).map (fun i => ⟨i, "t", 0⟩)) =
      takeLast 100 ((List.range 101).map (fun i => ⟨i, "t", 0⟩)) ∧
      (AdvancedPredatorDefenseSkill.appended_memory []
        ((List.range 101).map (fun i => ⟨i, "t", 0⟩))).length = 100) ∧
    (⟨0, "old", 0⟩ : ThreatEntry).interaction_text ∉
      ((AdvancedPredatorDefenseSkill.update_threat_memory
          (⟨0, "old", 0⟩ :: (List.range 99).map (fun i => ⟨i + 1, "x", 0⟩))
          (⟨100, "new", 0⟩ : ThreatEntry).timestamp
          ⟨(⟨100, "new", 0⟩ : ThreatEntry).interaction_text⟩
          (⟨100, "new", 0⟩ : ThreatEntry).threat_score true).1.map
        (fun x => x.interaction_text)) :=
  ⟨C6_theorem.1 ((List.range 101).map (fun i => ⟨i, "t", 0⟩)) 1 (by simp) (by norm_num),
    C6_theorem.2 ⟨0, "old", 0⟩ ⟨100, "new", 0⟩ ((List.range 99).map (fun i => ⟨i + 1, "x", 0⟩))
      (by simp) (by simp) (by simp)⟩

/-- C7 (counterexample): on the scenario-1 text exactly one emotional
trigger fires ("special"; "understands" is not in the trigger list
vulnerable/alone/misunderstood/special/unique/different), so
emotional_leverage is 0.2 — not ≈0.4 from two triggers as claimed. -/
theorem C7_counterexample :
    AdvancedPredatorDefenseSkill.detect_emotional_leverage test_interaction_1 = 1/5 ∧
      ((1 : ℚ)/5) ≠ 2/5 := by
  constructor
  · have hc : List.countP (fun p => containsLC test_interaction_1.text p)
        ["vulnerable", "alone", "misunderstood", "special", "unique", "different"] = 1 := by
      decide
    unfold AdvancedPredatorDefenseSkill.detect_emotional_leverage pattern_score
    rw [hc]
    norm_num [rmin]
  · norm_num

/-- C7 (amended): scenario 1 with empty memory yields
linguistic_manipulation = 0.3 (one pattern match), emotional_leverage = 0.2
(one trigger), zero for the other three dimensions, aggregate
0.3·0.3 + 0.2·0.25 = 0.14 (the weighted sum), enhanced = raw (empty
memory), and the NEUTRAL_PROFESSIONAL_RESPONSE label — for every oracle. -/
theorem C7_theorem :
    ∀ (o : VecOracle) (now : Nat),
      AdvancedPredatorDefenseSkill.analyze_interaction o [] now test_interaction_1 true true =
        ([⟨now, test_interaction_1.text, 7/50⟩],
          Except.ok ⟨⟨3/10, 1/5, 0, 0, 0⟩, 7/50, "NEUTRAL_PROFESSIONAL_RESPONSE"⟩) := by
  intro o now
  have h1 : AdvancedPredatorDefenseSkill.analyze_linguistic_manipulation test_interaction_1
      = 3/10 := by
    have hc : List.countP (fun p => containsLC test_interaction_1.text p)
        ["you're the only one who", "nobody else understands", "trust me and only me",
          "i know what's best for you"] = 1 := by decide
    unfold AdvancedPredatorDefenseSkill.analyze_linguistic_manipulation pattern_score
    rw [hc]
    norm_num [rmin]
  have h2 : AdvancedPredatorDefenseSkill.detect_emotional_leverage test_interaction_1
      = 1/5 := by
    have hc : List.countP (fun p => containsLC test_interaction_1.text p)
        ["vulnerable", "alone", "misunderstood", "special", "unique", "different"] = 1 := by
      decide
    unfold AdvancedPredatorDefenseSkill.detect_emotional_leverage pattern_score
    rw [hc]
    norm_num [rmin]
  have h3 : AdvancedPredatorDefenseSkill.identify_isolation_strategies test_interaction_1
      = 0 := by
    have hc : List.countP (fun p => containsLC test_interaction_1.text p)
        ["they don't get you", "your friends are toxic", "family doesn't understand",
          "i'm the only one who truly cares"] = 0 := by decide
    unfold AdvancedPredatorDefenseSkill.identify_isolation_strategies pattern_score
    rw [hc]
    norm_num [rmin]
  have h4 : AdvancedPredatorDefenseSkill.assess_credibility_attacks test_interaction_1
      = 0 := by
    have hc : List.countP (fun p => containsLC test_interaction_1.text p)
        ["you're not smart enough", "you couldn't do this without me",
          "i'm more experienced", "you don't understand"] = 0 := by decide
    unfold AdvancedPredatorDefenseSkill.assess_credibility_attacks pattern_score
    rw [hc]
    norm_num [rmin]
  have h5 : AdvancedPredatorDefenseSkill.evaluate_boundary_violations test_interaction_1
      = 0 := by
    have hc : List.countP (fun p => containsLC test_interaction_1.text p)
        ["just between us", "don't tell anyone", "this is our secret",
          "i know you want this"] = 0 := by decide
    unfold AdvancedPredatorDefenseSkill.evaluate_boundary_violations pattern_score
    rw [hc]
    norm_num [rmin]
  have hs : AdvancedPredatorDefenseSkill.threat_scores test_interaction_1
      = ⟨3/10, 1/5, 0, 0, 0⟩ := by
    unfold AdvancedPredatorDefenseSkill.threat_scores
    rw [h1, h2, h3, h4, h5]
  have hw : AdvancedPredatorDefenseSkill.weighted_threat_score
      (AdvancedPredatorDefenseSkill.threat_scores test_interaction_1) = 7/50 := by
    rw [hs]
    norm_num [AdvancedPredatorDefenseSkill.weighted_threat_score]
  have he : AdvancedPredatorDefenseSkill.enhance_with_historical_context o []
      (AdvancedPredatorDefenseSkill.weighted_threat_score
        (AdvancedPredatorDefenseSkill.threat_scores test_interaction_1))
      test_interaction_1.text = some (7/50) := by
    rw [hw]
    simp [AdvancedPredatorDefenseSkill.enhance_with_historical_context]
  simp only [AdvancedPredatorDefenseSkill.analyze_interaction, he]
  have hresp : AdvancedPredatorDefenseSkill.generate_advanced_defense_response (7/50)
      = "NEUTRAL_PROFESSIONAL_RESPONSE" := by
    norm_num [AdvancedPredatorDefenseSkill.generate_advanced_defense_response]
  have hupd : AdvancedPredatorDefenseSkill.update_threat_memory [] now test_interaction_1
      (7/50) true = ([⟨now, test_interaction_1.text, 7/50⟩], none) := by
    simp [AdvancedPredatorDefenseSkill.update_threat_memory, takeLast]
  simp only [hupd, hresp, hs]
  simp

/-- C9 (counterexample): with a failing audit-log append the advanced
scoring call returns the log error, not its score result — the unguarded
`open` in `_log_advanced_interaction` aborts scoring (the memory update
having already happened). -/
theorem C9_counterexample :
    AdvancedPredatorDefenseSkill.analyze_interaction plainOracle [] 0 ⟨""⟩ true false =
      ([⟨0, "", 0⟩], Except.error AnalyzeFailure.logWrite) := by
  have h1 : AdvancedPredatorDefenseSkill.analyze_linguistic_manipulation ⟨""⟩ = 0 :=
    pattern_score_empty _ _ (by decide)
  have h2 : AdvancedPredatorDefenseSkill.detect_emotional_leverage ⟨""⟩ = 0 :=
    pattern_score_empty _ _ (by decide)
  have h3 : AdvancedPredatorDefenseSkill.identify_isolation_strategies ⟨""⟩ = 0 :=
    pattern_score_empty _ _ (by decide)
  have h4 : AdvancedPredatorDefenseSkill.assess_credibility_attacks ⟨""⟩ = 0 :=
    pattern_score_empty _ _ (by decide)
  have h5 : AdvancedPredatorDefenseSkill.evaluate_boundary_violations ⟨""⟩ = 0 :=
    pattern_score_empty _ _ (by decide)
  have hs : AdvancedPredatorDefenseSkill.threat_scores ⟨""⟩ = ⟨0, 0, 0, 0, 0⟩ := by
    unfold AdvancedPredatorDefenseSkill.threat_scores
    rw [h1, h2, h3, h4, h5]
  have hw : AdvancedPredatorDefenseSkill.weighted_threat_score
      (AdvancedPredatorDefenseSkill.threat_scores ⟨""⟩) = 0 := by
    rw [hs]
    norm_num [AdvancedPredatorDefenseSkill.weighted_threat_score]
  have he : AdvancedPredatorDefenseSkill.enhance_with_historical_context plainOracle []
      (AdvancedPredatorDefenseSkill.weighted_threat_score
        (AdvancedPredatorDefenseSkill.threat_scores ⟨""⟩))
      (Interaction.mk "").text = some 0 := by
    rw [hw]
    simp [AdvancedPredatorDefenseSkill.enhance_with_historical_context]
  simp only [AdvancedPredatorDefenseSkill.analyze_interaction, he,
    AdvancedPredatorDefenseSkill.update_threat_memory]
  simp [takeLast]

/-- C9 (amended): an audit-log append failure is NOT best-effort — in the
advanced and basic predator-defense variants the unguarded log write makes
the scoring call propagate the error instead of returning its score result
(in the advanced variant after the memory update has already run). -/
theorem C9_theorem :
    (∀ (o : VecOracle) (mem : List ThreatEntry) (now : Nat) (inter : Interaction) (c : ℚ),
      AdvancedPredatorDefenseSkill.enhance_with_historical_context o mem
          (AdvancedPredatorDefenseSkill.weighted_threat_score
            (AdvancedPredatorDefenseSkill.threat_scores inter)) inter.text = some c →
      AdvancedPredatorDefenseSkill.analyze_interaction o mem now inter true false =
        ((AdvancedPredatorDefenseSkill.update_threat_memory mem now inter c true).1,
          Except.error AnalyzeFailure.logWrite)) ∧
    (∀ inter : Interaction,
      PredatorDefenseSkill.analyze_interaction inter false =
        Except.error AnalyzeFailure.logWrite) := by
  constructor
  · intro o mem now inter c henh
    simp only [AdvancedPredatorDefenseSkill.analyze_interaction, henh,
      AdvancedPredatorDefenseSkill.update_threat_memory]
    simp
  · intro inter
    simp [PredatorDefenseSkill.analyze_interaction]

/-- C9 (witness): the amended theorem applied at a concrete interaction
whose enhancement step trivially succeeds (empty memory). -/
theorem C9_witness :
    AdvancedPredatorDefenseSkill.analyze_interaction plainOracle [] 3 ⟨"hello"⟩ true false =
      ((AdvancedPredatorDefenseSkill.update_threat_memory [] 3 ⟨"hello"⟩
          (AdvancedPredatorDefenseSkill.weighted_threat_score
            (AdvancedPredatorDefenseSkill.threat_scores ⟨"hello"⟩)) true).1,
        Except.error AnalyzeFailure.logWrite) :=
  C9_theorem.1 plainOracle [] 3 ⟨"hello"⟩
    (AdvancedPredatorDefenseSkill.weighted_threat_score
      (AdvancedPredatorDefenseSkill.threat_scores ⟨"hello"⟩)) rfl

/-- C10: whenever the enhancement step yields a value, the memory entry a
scoring call appends carries exactly that final enhanced score — the same
value returned as the call's total score — in both the bad-actor and the
advanced variant. -/
theorem C10_theorem :
    (∀ (o : VecOracle) (lm gdb : List ThreatEntry) (now : Nat) (inter : Interaction) (c : ℚ),
      BadActorDetectionSystem.correlate_with_threat_intelligence o gdb lm
          (BadActorDetectionSystem.weighted_threat_score
            (BadActorDetectionSystem.threat_scores inter)) inter.text = some c →
      (BadActorDetectionSystem.analyze_interaction o lm gdb now inter true true).1.1 =
          takeLast 100 (lm ++ [⟨now, inter.text, c⟩]) ∧
        (BadActorDetectionSystem.analyze_interaction o lm gdb now inter true true).2 =
          Except.ok ⟨BadActorDetectionSystem.threat_scores inter, c,
            BadActorDetectionSystem.generate_multilayered_response c⟩) ∧
    (∀ (o : VecOracle) (mem : List ThreatEntry) (now : Nat) (inter : Interaction) (c : ℚ),
      AdvancedPredatorDefenseSkill.enhance_with_historical_context o mem
          (AdvancedPredatorDefenseSkill.weighted_threat_score
            (AdvancedPredatorDefenseSkill.threat_scores inter)) inter.text = some c →
      (AdvancedPredatorDefenseSkill.analyze_interaction o mem now inter true true).1 =
          takeLast 100 (mem ++ [⟨now, inter.text, c⟩]) ∧
        (AdvancedPredatorDefenseSkill.analyze_interaction o mem now inter true true).2 =
          Except.ok ⟨AdvancedPredatorDefenseSkill.threat_scores inter, c,
            AdvancedPredatorDefenseSkill.generate_advanced_defense_response c⟩) := by
  constructor
  · intro o lm gdb now inter c hcorr
    constructor
    · simp only [BadActorDetectionSystem.analyze_interaction, hcorr,
        BadActorDetectionSystem.update_threat_intelligence]
      simp
    · simp only [BadActorDetectionSystem.analyze_interaction, hcorr,
        BadActorDetectionSystem.update_threat_intelligence]
      simp
  · intro o mem now inter c henh
    constructor
    · simp only [AdvancedPredatorDefenseSkill.analyze_interaction, henh,
        AdvancedPredatorDefenseSkill.update_threat_memory]
      simp
    · simp only [AdvancedPredatorDefenseSkill.analyze_interaction, henh,
        AdvancedPredatorDefenseSkill.update_threat_memory]
      simp

/-- C10 (witness): the theorem applied at a concrete call with empty
memory, where the enhancement step returns the raw weighted score. -/
theorem C10_witness :
    (AdvancedPredatorDefenseSkill.analyze_interaction plainOracle [] 5 ⟨"hi"⟩ true true).1 =
        takeLast 100 ([] ++ [⟨5, (⟨"hi"⟩ : Interaction).text,
          AdvancedPredatorDefenseSkill.weighted_threat_score
            (AdvancedPredatorDefenseSkill.threat_scores ⟨"hi"⟩)⟩]) ∧
      (AdvancedPredatorDefenseSkill.analyze_interaction plainOracle [] 5 ⟨"hi"⟩ true true).2 =
        Except.ok ⟨AdvancedPredatorDefenseSkill.threat_scores ⟨"hi"⟩,
          AdvancedPredatorDefenseSkill.weighted_threat_score
            (AdvancedPredatorDefenseSkill.threat_scores ⟨"hi"⟩),
          AdvancedPredatorDefenseSkill.generate_advanced_defense_response
            (AdvancedPredatorDefenseSkill.weighted_threat_score
              (AdvancedPredatorDefenseSkill.threat_scores ⟨"hi"⟩))⟩ :=
  C10_theorem.2 plainOracle [] 5 ⟨"hi"⟩
    (AdvancedPredatorDefenseSkill.weighted_threat_score
      (AdvancedPredatorDefenseSkill.threat_scores ⟨"hi"⟩)) rfl
